import Mathlib

/-!
Verification development for the slide-narration server (`src/server.js`).

The server exposes two endpoints:
* `POST /api/analyze-slide`  — render a URL, extract the whole-page text,
  ask the narration generator once;
* `POST /api/analyze-slides-batch` — render a URL, segment the page into
  slides with a prioritised selector list, and drive each slide through the
  narration generator sequentially with per-slide failure isolation.

The external collaborators (the headless browser and the LLM service) are
modelled as function parameters: the browser as a `RenderedPage` value
(body text plus a `querySelectorAll` oracle) produced by a fallible
`render` step, and the generator as a function from the full prompt string
to `Except String String`.  JavaScript strings are modelled as Lean
`String`s; `text.trim()` is embedded as the executable `jsTrim` below
(Lean's own `String.trim` is not kernel-reducible), `substring(0, n)` as
the list-based `jsSubstring`, and `.length` as the character count.
-/

deriving instance DecidableEq for Except

set_option maxRecDepth 20000

namespace SlideNarration

/-- A JavaScript value as far as the request-body fields `url` and
`slideCount` are concerned (`req.body.url`, `req.body.slideCount`).
`NaN` is not modelled; numbers are integers. -/
inductive JSValue where
  | undefined
  | null
  | bool (b : Bool)
  | num (n : Int)
  | str (s : String)
deriving DecidableEq

/-- JavaScript truthiness, as tested by `if (!url)` (server.js:33,125). -/
def JSValue.truthy : JSValue → Bool
  | .undefined => false
  | .null => false
  | .bool b => b
  | .num n => n != 0
  | .str s => s != ""

/-- JavaScript string interpolation of a value, used in `console.log`. -/
def JSValue.display : JSValue → String
  | .undefined => "undefined"
  | .null => "null"
  | .bool true => "true"
  | .bool false => "false"
  | .num n => toString n
  | .str s => s

/-- JavaScript `s.substring(0, n)`: the first `n` characters of `s`
(all of `s` when it is shorter).  List-based executable embedding. -/
def jsSubstring (s : String) (n : Nat) : String :=
  String.mk (s.data.take n)

/-- JavaScript `s.trim()`: strip whitespace from both ends.  Executable
embedding (Lean's `String.trim` does not reduce in the kernel). -/
def jsTrim (s : String) : String :=
  String.mk (((s.data.dropWhile Char.isWhitespace).reverse.dropWhile
    Char.isWhitespace).reverse)

/-- The rendered DOM handed to `page.evaluate`: the whole-page text
(`document.body.innerText`) and the selector oracle
(`document.querySelectorAll`, returning the matched elements'
`innerText`s in document order). -/
structure RenderedPage where
  bodyText : String
  querySelectorAll : String → List String

/-- One entry of the array returned by the batch `page.evaluate`
(server.js:167,170-172): `{ text, index }`. -/
structure SlideData where
  text : String
  index : Nat
deriving DecidableEq

/-- The selector pattern list `slideSelectors` (server.js:147-153), in
priority order. -/
def slideSelectors : List String :=
  ["section", "[class*=\"slide\"]", "[class*=\"page\"]", "article",
   ".swiper-slide"]

/-- The selector loop (server.js:155-163): `slideElements` is the match
list of the first selector with at least one element, `[]` if none. -/
def firstMatching (page : RenderedPage) : List String → List String
  | [] => []
  | sel :: rest =>
    let elements := page.querySelectorAll sel
    if elements.length > 0 then elements else firstMatching page rest

/-- Mapping and filtering of the winning match list (server.js:170-173):
map each element to its text with its pre-filter position as `index`,
then keep only those whose trimmed text length exceeds 20.  Indices are
assigned before the length filter. -/
def segmentElements (els : List String) : List SlideData :=
  (els.enum.map fun p => { text := p.2, index := p.1 }).filter
    fun slide => (jsTrim slide.text).length > 20

/-- The whole batch `page.evaluate` callback (server.js:145-174): first
matching selector wins; with no match, the fallback returns the whole
page as one slide of index 0, without any length filter. -/
def detectSlides (page : RenderedPage) : List SlideData :=
  let slideElements := firstMatching page slideSelectors
  if slideElements.length = 0 then
    [{ text := page.bodyText, index := 0 }]
  else
    segmentElements slideElements

/-- Positional role of a slide within the batch, as the spec names it.
Derived exactly as the ternary at server.js:206 chooses the requirement
line: `i === 0 ? … : i === slides.length - 1 ? … : …`, with `total` the
full (uncapped) length of the detected slide list. -/
inductive PositionRole where
  | first
  | middle
  | last
deriving DecidableEq

/-- Role selection of server.js:206, keyed on the loop index and the
uncapped `slides.length`. -/
def requestedRole (i total : Nat) : PositionRole :=
  if i = 0 then .first
  else if i = total - 1 then .last
  else .middle

/-- The requirement line the ternary at server.js:206 injects into the
prompt. -/
def roleInstruction (i total : Nat) : String :=
  if i = 0 then "導入として簡潔に始める"
  else if i = total - 1 then "締めくくりの言葉を含める"
  else "内容を分かりやすく説明する"

/-- The batch prompt template (server.js:195-213) for loop index `i`,
uncapped slide count `total`, and the slide's raw text (truncated by
`slide.text.substring(0, 1500)` at server.js:209). -/
def batchPrompt (i total : Nat) (slideText : String) : String :=
  "\nあなたはプロのプレゼンテーターです。以下のスライド内容から、自然で魅力的なナレーション原稿を日本語で作成してください。\n" ++
  "\n【スライド番号】\n" ++ toString (i + 1) ++ "枚目\n" ++
  "\n【要件】\n- 150-250文字程度\n- ビジネスカジュアルな口調\n- 敬体（です・ます調）\n- 句読点を適切に入れる\n- " ++
  roleInstruction i total ++ "\n" ++
  "\n【スライド内容】\n" ++ jsSubstring slideText 1500 ++ "\n" ++
  "\n【出力形式】\nナレーション原稿のみを出力してください。前置きや説明は不要です。\n"

/-- The deterministic fallback pushed at server.js:226 when generation for
slide `i` (0-based) fails: references the 1-based ordinal `i + 1`. -/
def fallbackNarration (i : Nat) : String :=
  "スライド" ++ toString (i + 1) ++ "の内容を説明します。"

/-- The spec's NarrationRequest: truncated slide text plus positional
role, as the orchestrator derives them (server.js:206,209). -/
structure NarrationRequest where
  slideText : String
  positionRole : PositionRole
deriving DecidableEq

/-- The NarrationRequests issued by the batch loop (server.js:192-213):
one per slide of the capped list (`i < Math.min(slides.length, 50)`),
with the role keyed on the uncapped `slides.length`. -/
def batchRequests (slides : List SlideData) : List NarrationRequest :=
  (slides.take 50).enum.map fun p =>
    { slideText := jsSubstring p.2.text 1500
      positionRole := requestedRole p.1 slides.length }

/-- Observable events of one iteration of the batch loop
(server.js:215-227). -/
inductive BatchEvent where
  | genCall (i : Nat) (prompt : String)
  | push (i : Nat) (text : String)
  | delayMs (ms : Nat)
  | logGenError (i : Nat)
deriving DecidableEq

/-- One iteration of the batch loop (server.js:192-228) for the pair
`(i, slide)`: call the generator on the prompt; on success push the
trimmed narration and sleep 500 ms (server.js:216-222); on failure log
and push the fallback (server.js:224-227) — with no sleep, the delay
statement being inside the `try` block. -/
def slideEvents (gen : String → Except String String) (total : Nat)
    (p : Nat × SlideData) : List BatchEvent :=
  match gen (batchPrompt p.1 total p.2.text) with
  | .ok t => [.genCall p.1 (batchPrompt p.1 total p.2.text),
              .push p.1 (jsTrim t), .delayMs 500]
  | .error _ => [.genCall p.1 (batchPrompt p.1 total p.2.text),
                 .logGenError p.1, .push p.1 (fallbackNarration p.1)]

/-- Event trace of the whole batch loop: the capped slide list
(`i < Math.min(slides.length, 50)`, server.js:192), processed strictly
in order. -/
def batchTrace (gen : String → Except String String)
    (slides : List SlideData) : List BatchEvent :=
  (slides.take 50).enum.flatMap (slideEvents gen slides.length)

/-- Projection of a trace event to the narration it appends, if any. -/
def pushText : BatchEvent → Option String
  | .push _ t => some t
  | _ => none

/-- The `narrations` array accumulated by the loop: the pushed texts of
the trace, in order. -/
def narrations (gen : String → Except String String)
    (slides : List SlideData) : List String :=
  (batchTrace gen slides).filterMap pushText

/-- The narration produced for the pair `(i, slide)`: the trimmed
generator output on success, the fallback string on failure. -/
def narrationOf (gen : String → Except String String) (total : Nat)
    (p : Nat × SlideData) : String :=
  match gen (batchPrompt p.1 total p.2.text) with
  | .ok t => jsTrim t
  | .error _ => fallbackNarration p.1

/-- Whether generation succeeds for the pair `(i, slide)`. -/
def genSuccess (gen : String → Except String String) (total : Nat)
    (p : Nat × SlideData) : Bool :=
  match gen (batchPrompt p.1 total p.2.text) with
  | .ok _ => true
  | .error _ => false

/-- Is the event a pacing delay? -/
def isDelay : BatchEvent → Bool
  | .delayMs _ => true
  | _ => false

/-- Is the event the fixed 500 ms pacing delay? -/
def isDelay500 : BatchEvent → Bool
  | .delayMs 500 => true
  | _ => false

/-- The 200-response body of the batch endpoint (server.js:232-237). -/
structure BatchResponse where
  success : Bool
  narrations : List String
  slideCount : Nat
  generatedCount : Nat
deriving DecidableEq

/-- The successful batch response (server.js:232-237): `slideCount` is
the uncapped `slides.length`, `generatedCount` is `narrations.length`. -/
def batchSuccessResponse (gen : String → Except String String)
    (slides : List SlideData) : BatchResponse :=
  { success := true
    narrations := narrations gen slides
    slideCount := slides.length
    generatedCount := (narrations gen slides).length }

/-- The single-slide prompt template (server.js:77-93); `textContent` is
truncated by `substring(0, 2000)` at server.js:89. -/
def singlePrompt (textContent : String) : String :=
  "\nあなたはプロのプレゼンテーターです。以下のスライド内容から、自然で魅力的なナレーション原稿を日本語で作成してください。\n" ++
  "\n【要件】\n- 150-300文字程度\n- ビジネスカジュアルな口調\n- 敬体（です・ます調）\n- 句読点を適切に入れる\n- 専門用語は分かりやすく説明\n- 前置きや挨拶は不要（内容に直接入る）\n" ++
  "\n【スライド内容】\n" ++ jsSubstring textContent 2000 ++ "\n" ++
  "\n【出力形式】\nナレーション原稿のみを出力してください。前置きや説明は不要です。\n"

/-- The 200-response body of the single-slide endpoint
(server.js:100-105). -/
structure SingleResponse where
  success : Bool
  narration : String
  textLength : Nat
  narrationLength : Nat
deriving DecidableEq

/-- Browser lifecycle events observable in a handler run. -/
inductive BrowserEvent where
  | launch
  | close
deriving DecidableEq, BEq

/-- State at the end of a handler's `try` block: the block's result (a
thrown error or the 200 payload), the value of the `let browser`
variable at that point (`none` = JavaScript `null`), and the browser
events emitted so far. -/
structure TryOutcome (α : Type) where
  result : Except String α
  browser : Option Nat
  events : List BrowserEvent

/-- An HTTP response of either endpoint. -/
inductive HttpResult (α : Type) where
  | badRequest (error : String)
  | ok (payload : α)
  | serverError (error message : String)
deriving DecidableEq

/-- Full observable outcome of a handler run: the response, the browser
events, and the `console.log` lines that mention request data. -/
structure HandlerRun (α : Type) where
  response : HttpResult α
  events : List BrowserEvent
  logs : List String

/-- The shared `catch` block of both handlers (server.js:107-118 and
239-250): on a thrown error, close the browser only if the `browser`
variable is non-null, then answer 500 with the fixed label and the
error's message. -/
def catchWrap {α : Type} (errLabel : String) (t : TryOutcome α) :
    HandlerRun α :=
  match t.result with
  | .ok r => { response := .ok r, events := t.events, logs := [] }
  | .error e =>
    match t.browser with
    | some _ =>
      { response := .serverError errLabel e
        events := t.events ++ [.close], logs := [] }
    | none =>
      { response := .serverError errLabel e, events := t.events, logs := [] }

/-- Request body of the batch endpoint (server.js:123). -/
structure BatchRequestBody where
  url : JSValue
  slideCount : JSValue

/-- Request body of the single endpoint (server.js:31). -/
structure SingleRequestBody where
  url : JSValue

/-- The batch start log (server.js:132):
`バッチ解析開始: ${url} (推定${slideCount || '不明'}枚)`. -/
def batchStartLog (url slideCount : JSValue) : String :=
  "📖 バッチ解析開始: " ++ url.display ++ " (推定" ++
    (if slideCount.truthy then slideCount.display else "不明") ++ "枚)"

/-- The `try` block of the batch handler (server.js:131-237).
`launch` models `puppeteer.launch` (a handle on success, a thrown error
otherwise); `render` models `newPage`/`goto`/settle/`page.evaluate` as
one fallible step from the handle and the url to the rendered page;
`post` models a failure thrown after the browser was already closed and
nulled (model construction or `res.json`).  Per-slide generator failures
are caught inside the loop and never escape (server.js:224-227). -/
def batchTry (launch : Except String Nat)
    (render : Nat → JSValue → Except String RenderedPage)
    (gen : String → Except String String) (post : Except String Unit)
    (url : JSValue) : TryOutcome BatchResponse :=
  match launch with
  | .error e => { result := .error e, browser := none, events := [] }
  | .ok b =>
    match render b url with
    | .error e =>
      { result := .error e, browser := some b, events := [.launch] }
    | .ok page =>
      -- await browser.close(); browser = null;  (server.js:176-177)
      let slides := detectSlides page
      match post with
      | .error e =>
        { result := .error e, browser := none
          events := [.launch, .close] }
      | .ok _ =>
        { result := .ok (batchSuccessResponse gen slides)
          browser := none, events := [.launch, .close] }

/-- The batch handler (server.js:122-251): validate `url` truthiness,
then run the `try` block under the `catch`. -/
def analyzeSlidesBatch (body : BatchRequestBody)
    (launch : Except String Nat)
    (render : Nat → JSValue → Except String RenderedPage)
    (gen : String → Except String String) (post : Except String Unit) :
    HandlerRun BatchResponse :=
  if body.url.truthy then
    let run := catchWrap "バッチ解析に失敗しました"
      (batchTry launch render gen post body.url)
    { run with logs := batchStartLog body.url body.slideCount :: run.logs }
  else
    { response := .badRequest "URLが必要です", events := [], logs := [] }

/-- The `try` block of the single-slide handler (server.js:39-105).
`render` models `newPage`/`goto`/settle/`page.evaluate` returning the
page text after noise removal; the generator call happens after the
browser was closed and nulled (server.js:63-64), so its failure reaches
the `catch` with `browser` null. -/
def singleTry (launch : Except String Nat)
    (render : Nat → JSValue → Except String String)
    (gen : String → Except String String) (url : JSValue) :
    TryOutcome SingleResponse :=
  match launch with
  | .error e => { result := .error e, browser := none, events := [] }
  | .ok b =>
    match render b url with
    | .error e =>
      { result := .error e, browser := some b, events := [.launch] }
    | .ok textContent =>
      -- await browser.close(); browser = null;  (server.js:63-64)
      match gen (singlePrompt textContent) with
      | .error e =>
        { result := .error e, browser := none
          events := [.launch, .close] }
      | .ok t =>
        let narration := jsTrim t
        { result := .ok { success := true, narration := narration
                          textLength := textContent.length
                          narrationLength := narration.length }
          browser := none, events := [.launch, .close] }

/-- The single-slide handler (server.js:30-119). -/
def analyzeSlide (body : SingleRequestBody) (launch : Except String Nat)
    (render : Nat → JSValue → Except String String)
    (gen : String → Except String String) : HandlerRun SingleResponse :=
  if body.url.truthy then
    let run := catchWrap "スライド解析に失敗しました"
      (singleTry launch render gen body.url)
    { run with
        logs := ("📖 スライド解析開始: " ++ body.url.display) :: run.logs }
  else
    { response := .badRequest "URLが必要です", events := [], logs := [] }

/-! ## Fixtures used by witnesses and counterexamples -/

/-- A generator that always succeeds. -/
def genOk : String → Except String String := fun _ => .ok "ナレーション"

/-- A generator that always fails. -/
def genFailAll : String → Except String String := fun _ => .error "boom"

/-- A page on which no selector pattern matches and whose body text is
short. -/
def pageShort : RenderedPage :=
  { bodyText := "short", querySelectorAll := fun _ => [] }

/-- Element text of trimmed length 25. -/
def textA : String := String.mk (List.replicate 25 'a')

/-- Element text of trimmed length 15. -/
def textB : String := String.mk (List.replicate 15 'b')

/-- Element text of trimmed length 100. -/
def textC : String := String.mk (List.replicate 100 'c')

/-- A page on which the selector `section` matches three elements with
trimmed text lengths 25, 15 and 100. -/
def pageThree : RenderedPage :=
  { bodyText := ""
    querySelectorAll := fun sel =>
      if sel = "section" then [textA, textB, textC] else [] }

/-- A 51-slide segmenter output (all texts are `"x"`). -/
def slides51 : List SlideData :=
  (List.range 51).map fun j => { text := "x", index := j }

/-- A 3-slide segmenter output. -/
def slides3 : List SlideData :=
  [{ text := "alpha-text-one", index := 0 },
   { text := "beta-text-two", index := 1 },
   { text := "gamma-text-three", index := 2 }]

/-- A 2-slide segmenter output. -/
def slides2 : List SlideData :=
  [{ text := "alpha-text-one", index := 0 },
   { text := "beta-text-two", index := 1 }]

/-- A generator that fails exactly on the prompt of slide 1 of
`slides3` and succeeds on every other prompt. -/
def genW : String → Except String String :=
  fun s =>
    if s = batchPrompt 1 3 "beta-text-two" then .error "boom"
    else .ok "ナレーション"

/-- A single-mode renderer that always succeeds. -/
def renderSOk : Nat → JSValue → Except String String :=
  fun _ _ => .ok "page text"

/-- A batch-mode renderer that always succeeds, yielding `pageShort`. -/
def renderBOk : Nat → JSValue → Except String RenderedPage :=
  fun _ _ => .ok pageShort

/-! ## Supporting lemmas -/

theorem slideEvents_pushes (gen : String → Except String String)
    (total : Nat) (p : Nat × SlideData) :
    (slideEvents gen total p).filterMap pushText
      = [narrationOf gen total p] := by
  unfold slideEvents narrationOf
  cases gen (batchPrompt p.1 total p.2.text) <;> simp [pushText]

theorem flatMap_pushes (gen : String → Except String String) (total : Nat)
    (l : List (Nat × SlideData)) :
    (l.flatMap (slideEvents gen total)).filterMap pushText
      = l.map (narrationOf gen total) := by
  induction l with
  | nil => rfl
  | cons p l ih =>
    rw [List.flatMap_cons, List.filterMap_append, slideEvents_pushes, ih,
      List.map_cons, List.singleton_append]

theorem narrations_eq_map (gen : String → Except String String)
    (slides : List SlideData) :
    narrations gen slides
      = (slides.take 50).enum.map (narrationOf gen slides.length) := by
  unfold narrations batchTrace
  exact flatMap_pushes gen slides.length (slides.take 50).enum

theorem narrations_length (gen : String → Except String String)
    (slides : List SlideData) :
    (narrations gen slides).length = min slides.length 50 := by
  rw [narrations_eq_map, List.length_map, List.enum_length,
    List.length_take, Nat.min_comm]

theorem narrations_getElem (gen : String → Except String String)
    (slides : List SlideData) (i : Nat) :
    (narrations gen slides)[i]?
      = ((slides.take 50)[i]?).map
          (fun s => narrationOf gen slides.length (i, s)) := by
  rw [narrations_eq_map, List.getElem?_map, List.getElem?_enum]
  cases (slides.take 50)[i]? <;> rfl

/-! ## Claim theorems -/

/-- C1: every batch run produces exactly one narration per processed
slide, in slide order: `narrations.length = generatedCount
= min(segmented count, 50)`, the `i`-th narration is produced from the
`i`-th slide of the segmenter's post-filter output, and the reported
`slideCount` field is the segmented count prior to capping. -/
theorem c1_batch_counts_and_order (gen : String → Except String String)
    (page : RenderedPage) :
    (batchSuccessResponse gen (detectSlides page)).narrations.length
        = min (detectSlides page).length 50
    ∧ (batchSuccessResponse gen (detectSlides page)).generatedCount
        = (batchSuccessResponse gen (detectSlides page)).narrations.length
    ∧ (batchSuccessResponse gen (detectSlides page)).slideCount
        = (detectSlides page).length
    ∧ ∀ i s, (detectSlides page)[i]? = some s → i < 50 →
        (batchSuccessResponse gen (detectSlides page)).narrations[i]?
          = some (narrationOf gen (detectSlides page).length (i, s)) := by
  refine ⟨narrations_length gen (detectSlides page), rfl, rfl, ?_⟩
  intro i s hs h50
  show (narrations gen (detectSlides page))[i]? = _
  rw [narrations_getElem, List.getElem?_take_of_lt h50, hs]
  rfl

/-- Witness for C1 at a concrete run: one detected slide, generator
always succeeding. -/
theorem c1_witness :
    (batchSuccessResponse genOk (detectSlides pageShort)).narrations[0]?
      = some (narrationOf genOk (detectSlides pageShort).length
          (0, { text := "short", index := 0 })) :=
  (c1_batch_counts_and_order genOk pageShort).2.2.2 0
    { text := "short", index := 0 } (by decide) (by decide)

/-- C2: if the narration generator fails for slide `k` only (0-based
within the capped list), the batch is not aborted: `narrations[k]` is
the deterministic fallback string referencing the 1-based ordinal
`k + 1`, and every other entry is the same as in a run with no
failure. -/
theorem c2_failure_isolation (gen gen' : String → Except String String)
    (slides : List SlideData) (k : Nat) (sk : SlideData) (e t : String)
    (hk : slides[k]? = some sk) (hk50 : k < 50)
    (hfail : gen (batchPrompt k slides.length sk.text) = .error e)
    (hok : gen' (batchPrompt k slides.length sk.text) = .ok t)
    (hagree : ∀ i si, slides[i]? = some si → i < 50 → i ≠ k →
        gen (batchPrompt i slides.length si.text)
          = gen' (batchPrompt i slides.length si.text)) :
    (narrations gen slides)[k]? = some (fallbackNarration k)
    ∧ ∀ i, i ≠ k →
        (narrations gen slides)[i]? = (narrations gen' slides)[i]? := by
  constructor
  · rw [narrations_getElem, List.getElem?_take_of_lt hk50, hk]
    simp [narrationOf, hfail]
  · intro i hne
    rw [narrations_getElem, narrations_getElem]
    cases hti : (slides.take 50)[i]? with
    | none => rfl
    | some si =>
      obtain ⟨hlen, -⟩ := List.getElem?_eq_some.1 hti
      have hi50 : i < 50 := by
        rw [List.length_take] at hlen
        exact lt_of_lt_of_le hlen (Nat.min_le_left _ _)
      have hsi : slides[i]? = some si := by
        rw [← List.getElem?_take_of_lt (l := slides) hi50]
        exact hti
      simp [narrationOf, hagree i si hsi hi50 hne]

/-- Witness for C2 at a concrete run: three slides, `genW` failing
exactly on slide 1's prompt, compared with the always-succeeding
`genOk`. -/
theorem c2_witness :
    (narrations genW slides3)[1]? = some (fallbackNarration 1)
    ∧ (narrations genW slides3)[0]? = (narrations genOk slides3)[0]? := by
  have h := c2_failure_isolation genW genOk slides3 1
    { text := "beta-text-two", index := 1 } "boom" "ナレーション"
    (by decide) (by decide) (by simp [genW, slides3]) rfl ?agree
  case agree =>
    intro i si hsi h50 hne
    have hlt : i < 3 := by
      obtain ⟨hl, -⟩ := List.getElem?_eq_some.1 hsi
      simpa [slides3] using hl
    interval_cases i
    · have hsi' : si = { text := "alpha-text-one", index := 0 } := by
        simpa [slides3] using hsi.symm
      subst hsi'
      show genW (batchPrompt 0 slides3.length "alpha-text-one") = _
      simp [genW, genOk, slides3, batchPrompt, roleInstruction,
        show (toString (0 + 1 : Nat)) = "1" from by decide,
        show (toString (1 + 1 : Nat)) = "2" from by decide,
        show jsSubstring "alpha-text-one" 1500 = "alpha-text-one" from by decide,
        show jsSubstring "beta-text-two" 1500 = "beta-text-two" from by decide]
    · exact absurd rfl hne
    · have hsi' : si = { text := "gamma-text-three", index := 2 } := by
        simpa [slides3] using hsi.symm
      subst hsi'
      show genW (batchPrompt 2 slides3.length "gamma-text-three") = _
      simp [genW, genOk, slides3, batchPrompt, roleInstruction,
        show (toString (2 + 1 : Nat)) = "3" from by decide,
        show (toString (1 + 1 : Nat)) = "2" from by decide,
        show jsSubstring "gamma-text-three" 1500 = "gamma-text-three" from by decide,
        show jsSubstring "beta-text-two" 1500 = "beta-text-two" from by decide]
  exact ⟨h.1, h.2 0 (by decide)⟩

/-- Position of the i-th issued NarrationRequest. -/
theorem batchRequests_getElem (slides : List SlideData) (i : Nat) :
    (batchRequests slides)[i]?
      = ((slides.take 50)[i]?).map
          (fun s => { slideText := jsSubstring s.text 1500
                      positionRole := requestedRole i slides.length }) := by
  unfold batchRequests
  rw [List.getElem?_map, List.getElem?_enum]
  cases (slides.take 50)[i]? <;> rfl

/-- Counterexample to C3 as stated: with 51 segmented slides the last
processed slide is `i = 49 = min(51, 50) - 1`, yet its request carries
role `middle`, not `last` (the code compares `i` against the uncapped
`slides.length - 1 = 50`). -/
theorem c3_counterexample :
    min slides51.length 50 - 1 = 49
    ∧ (batchRequests slides51)[49]?
        = some { slideText := "x", positionRole := PositionRole.middle }
    ∧ PositionRole.middle ≠ PositionRole.last := by
  decide

/-- C3 as amended: for a batch run with more than one processed slide,
the request for slide `i` carries role `first` exactly when `i = 0` and
role `last` exactly when `i` equals the *uncapped* last index
`slides.length - 1`; all other processed slides get `middle`.  In
particular, when more than 50 slides are segmented no processed request
ever carries role `last`. -/
theorem c3_position_roles (slides : List SlideData) (i : Nat)
    (req : NarrationRequest) (hpro : 1 < min slides.length 50)
    (hreq : (batchRequests slides)[i]? = some req) :
    (req.positionRole = PositionRole.first ↔ i = 0)
    ∧ (req.positionRole = PositionRole.last ↔ i = slides.length - 1)
    ∧ (req.positionRole = PositionRole.middle
        ↔ (i ≠ 0 ∧ i ≠ slides.length - 1)) := by
  have hlen : 1 < slides.length :=
    lt_of_lt_of_le hpro (Nat.min_le_left _ _)
  rw [batchRequests_getElem] at hreq
  cases hti : (slides.take 50)[i]? with
  | none => rw [hti] at hreq; cases hreq
  | some s =>
    rw [hti] at hreq
    obtain rfl := Option.some.inj hreq
    show (requestedRole i slides.length = _ ↔ _) ∧ _
    unfold requestedRole
    by_cases h0 : i = 0
    · subst h0
      simp only [if_pos rfl]
      refine ⟨by simp, ?_, ?_⟩
      · constructor
        · intro h; cases h
        · intro h; omega
      · constructor
        · intro h; cases h
        · intro h; exact absurd rfl h.1
    · by_cases h1 : i = slides.length - 1
      · rw [if_neg h0, if_pos h1]
        refine ⟨?_, by simp [h1], ?_⟩
        · constructor
          · intro h; cases h
          · intro h; exact absurd h h0
        · constructor
          · intro h; cases h
          · intro h; exact absurd h1 h.2
      · rw [if_neg h0, if_neg h1]
        refine ⟨?_, ?_, by simp [h0, h1]⟩
        · constructor
          · intro h; cases h
          · intro h; exact absurd h h0
        · constructor
          · intro h; cases h
          · intro h; exact absurd h h1

/-- Witness for C3 (amended) at a concrete run: three slides, the third
request carries role `last` and only it. -/
theorem c3_witness :
    (NarrationRequest.positionRole
        { slideText := "gamma-text-three", positionRole := PositionRole.last }
      = PositionRole.last ↔ 2 = slides3.length - 1) :=
  (c3_position_roles slides3 2
    { slideText := "gamma-text-three", positionRole := PositionRole.last }
    (by decide) (by decide)).2.1

/-- Counterexample to C4 as stated: on a page where no selector pattern
matches and the whole body text has trimmed length 5 ≤ 20, the fallback
slide is emitted unfiltered. -/
theorem c4_counterexample :
    detectSlides pageShort = [{ text := "short", index := 0 }]
    ∧ ¬ 20 < (jsTrim "short").length := by
  decide

/-- C4 as amended: the `> 20` trimmed-length filter applies exactly to
the slides obtained from a matching selector pattern; when no pattern
matches, the fallback whole-page slide is returned without any length
filter, so it may have trimmed length ≤ 20. -/
theorem c4_filter_except_fallback :
    (∀ page s, firstMatching page slideSelectors ≠ [] →
        s ∈ detectSlides page → 20 < (jsTrim s.text).length)
    ∧ (∀ page, firstMatching page slideSelectors = [] →
        detectSlides page = [{ text := page.bodyText, index := 0 }]) := by
  constructor
  · intro page s hne hmem
    unfold detectSlides at hmem
    rw [if_neg (fun h => hne (List.length_eq_zero.mp h))] at hmem
    unfold segmentElements at hmem
    have h := List.of_mem_filter hmem
    simpa using h
  · intro page h
    unfold detectSlides
    rw [h]
    rfl

/-- Witness for C4 (amended): a filtered slide of a matching page indeed
has trimmed length above 20, and the no-match page yields the unfiltered
whole-page slide. -/
theorem c4_witness :
    20 < (jsTrim textA).length
    ∧ detectSlides pageShort = [{ text := "short", index := 0 }] :=
  ⟨c4_filter_except_fallback.1 pageThree { text := textA, index := 0 }
      (by decide) (by decide),
   c4_filter_except_fallback.2 pageShort rfl⟩

/-- If the prefix of the selector list before position `j` matches
nothing and the selector at `j` matches something, the loop returns
exactly that selector's match list. -/
theorem firstMatching_of_prefix_empty (page : RenderedPage)
    (L : List String) (j : Nat) (sel : String)
    (hsel : L[j]? = some sel)
    (hprev : ∀ j' sel', j' < j → L[j']? = some sel' →
      page.querySelectorAll sel' = [])
    (hne : page.querySelectorAll sel ≠ []) :
    firstMatching page L = page.querySelectorAll sel := by
  induction L generalizing j with
  | nil => cases hsel
  | cons a rest ih =>
    cases j with
    | zero =>
      rw [List.getElem?_cons_zero] at hsel
      obtain rfl := Option.some.inj hsel
      show (if (page.querySelectorAll a).length > 0 then
          page.querySelectorAll a else firstMatching page rest) = _
      rw [if_pos (List.length_pos.mpr hne)]
    | succ j =>
      rw [List.getElem?_cons_succ] at hsel
      have ha : page.querySelectorAll a = [] :=
        hprev 0 a (Nat.succ_pos j) List.getElem?_cons_zero
      show (if (page.querySelectorAll a).length > 0 then
          page.querySelectorAll a else firstMatching page rest) = _
      rw [ha, if_neg (by simp)]
      exact ih j hsel fun j' sel' hj hj' =>
        hprev (j' + 1) sel' (Nat.succ_lt_succ hj)
          (by rw [List.getElem?_cons_succ]; exact hj')

/-- If no selector of the list matches anything, the loop returns the
empty match list. -/
theorem firstMatching_all_empty (page : RenderedPage) (L : List String)
    (h : ∀ sel ∈ L, page.querySelectorAll sel = []) :
    firstMatching page L = [] := by
  induction L with
  | nil => rfl
  | cons a rest ih =>
    show (if (page.querySelectorAll a).length > 0 then
        page.querySelectorAll a else firstMatching page rest) = _
    rw [h a (List.mem_cons_self a rest), if_neg (by simp)]
    exact ih fun sel hsel => h sel (List.mem_cons_of_mem a hsel)

/-- C5: the segmenter tries the selector patterns in their fixed
priority order; the result equals applying only the first pattern that
matches at least one element (mapping and filtering its match list),
and when no pattern matches anything the output is the single
whole-page slide of index 0. -/
theorem c5_selector_priority :
    (∀ page (j : Nat) (sel : String), slideSelectors[j]? = some sel →
        (∀ j' sel', j' < j → slideSelectors[j']? = some sel' →
          page.querySelectorAll sel' = []) →
        page.querySelectorAll sel ≠ [] →
        detectSlides page = segmentElements (page.querySelectorAll sel))
    ∧ (∀ page, (∀ sel ∈ slideSelectors, page.querySelectorAll sel = []) →
        detectSlides page = [{ text := page.bodyText, index := 0 }]) := by
  constructor
  · intro page j sel hsel hprev hne
    have hfm := firstMatching_of_prefix_empty page slideSelectors j sel
      hsel hprev hne
    unfold detectSlides
    rw [hfm, if_neg (fun h => hne (List.length_eq_zero.mp h))]
  · intro page h
    unfold detectSlides
    rw [firstMatching_all_empty page slideSelectors h]
    rfl

/-- Witness for C5: on `pageThree` the first pattern `section` wins; on
`pageShort` nothing matches and the whole-page fallback fires. -/
theorem c5_witness :
    detectSlides pageThree
      = segmentElements (pageThree.querySelectorAll "section")
    ∧ detectSlides pageShort = [{ text := "short", index := 0 }] :=
  ⟨c5_selector_priority.1 pageThree 0 "section" (by decide)
      (fun j' sel' h _ => absurd h (Nat.not_lt_zero j')) (by decide),
   c5_selector_priority.2 pageShort fun sel _ => rfl⟩

/-- Counterexample to C6 as stated: on a page whose winning pattern
matches three elements of trimmed lengths 25, 15, 100, the two
surviving slides carry the pre-filter document-order indices 0 and 2 —
not the dense reassigned values 0 and 1. -/
theorem c6_counterexample :
    (detectSlides pageThree).map SlideData.index = [0, 2]
    ∧ ([0, 2] : List Nat) ≠ [0, 1] := by
  decide

/-- C6 as amended: the segmenter outputs exactly the two slides of
lengths 25 and 100 with their pre-filter indices 0 and 2, and the
orchestrator produces exactly two narrations whose requests carry roles
`first` and `last`. -/
theorem c6_example_run :
    detectSlides pageThree
      = [{ text := textA, index := 0 }, { text := textC, index := 2 }]
    ∧ (narrations genOk (detectSlides pageThree)).length = 2
    ∧ (batchRequests (detectSlides pageThree)).map
          NarrationRequest.positionRole
        = [PositionRole.first, PositionRole.last] := by
  decide

/-- The events of one loop iteration contain exactly one pacing delay
when generation succeeds and none when it fails. -/
theorem slideEvents_countP_isDelay (gen : String → Except String String)
    (total : Nat) (p : Nat × SlideData) :
    (slideEvents gen total p).countP isDelay
      = if genSuccess gen total p then 1 else 0 := by
  unfold slideEvents genSuccess
  cases gen (batchPrompt p.1 total p.2.text) <;>
    simp [isDelay, List.countP_cons]

/-- Same count with the delay length pinned to 500 ms. -/
theorem slideEvents_countP_isDelay500
    (gen : String → Except String String) (total : Nat)
    (p : Nat × SlideData) :
    (slideEvents gen total p).countP isDelay500
      = if genSuccess gen total p then 1 else 0 := by
  unfold slideEvents genSuccess
  cases gen (batchPrompt p.1 total p.2.text) <;>
    simp [isDelay500, List.countP_cons]

/-- Delay events of the whole trace, counted per processed slide. -/
theorem batchTrace_countP (gen : String → Except String String)
    (slides : List SlideData) (q : BatchEvent → Bool)
    (hq : ∀ p, (slideEvents gen slides.length p).countP q
      = if genSuccess gen slides.length p then 1 else 0) :
    (batchTrace gen slides).countP q
      = ((slides.take 50).enum).countP (genSuccess gen slides.length) := by
  unfold batchTrace
  induction (slides.take 50).enum with
  | nil => rfl
  | cons p l ih =>
    rw [List.flatMap_cons, List.countP_append, hq, ih, List.countP_cons]
    cases h : genSuccess gen slides.length p <;> simp [h] <;> omega

/-- Counterexample to C7 as stated: a two-slide batch whose generator
fails on both slides is processed with no pacing delay at all — in
particular there is no delay between slide 0 and slide 1, although both
slides are processed (two fallback narrations are produced). -/
theorem c7_counterexample :
    (narrations genFailAll slides2).length = 2
    ∧ (batchTrace genFailAll slides2).countP isDelay = 0 := by
  decide

/-- C7 as amended: the fixed pacing delay occurs exactly once per
successfully generated slide — on the success path only — and every
delay in the trace is the fixed 500 ms one; on the failure (fallback)
path no delay is inserted, the delay statement sitting inside the `try`
block. -/
theorem c7_delay_on_success_only (gen : String → Except String String)
    (slides : List SlideData) :
    (batchTrace gen slides).countP isDelay
      = ((slides.take 50).enum).countP (genSuccess gen slides.length)
    ∧ (batchTrace gen slides).countP isDelay500
      = (batchTrace gen slides).countP isDelay := by
  rw [batchTrace_countP gen slides isDelay
      (slideEvents_countP_isDelay gen slides.length),
    batchTrace_countP gen slides isDelay500
      (slideEvents_countP_isDelay500 gen slides.length)]
  exact ⟨rfl, rfl⟩

/-- C8: two batch requests identical except for the `slideCount` body
field, with identical renderer and generator behaviour, receive
identical HTTP responses (and identical browser activity): `slideCount`
only reaches the start-of-run log line. -/
theorem c8_slideCount_advisory (url sc1 sc2 : JSValue)
    (launch : Except String Nat)
    (render : Nat → JSValue → Except String RenderedPage)
    (gen : String → Except String String) (post : Except String Unit) :
    (analyzeSlidesBatch { url := url, slideCount := sc1 }
        launch render gen post).response
      = (analyzeSlidesBatch { url := url, slideCount := sc2 }
          launch render gen post).response
    ∧ (analyzeSlidesBatch { url := url, slideCount := sc1 }
        launch render gen post).events
      = (analyzeSlidesBatch { url := url, slideCount := sc2 }
          launch render gen post).events := by
  unfold analyzeSlidesBatch
  cases h : url.truthy <;> simp [h]

/-- Browser events of a single-slide handler run: empty unless the
launch succeeded, in which case exactly one launch and one close. -/
theorem analyzeSlide_events (body : SingleRequestBody)
    (launch : Except String Nat)
    (render : Nat → JSValue → Except String String)
    (gen : String → Except String String) :
    (analyzeSlide body launch render gen).events
      = if body.url.truthy then
          (match launch with
            | .ok _ => [BrowserEvent.launch, BrowserEvent.close]
            | .error _ => [])
        else [] := by
  unfold analyzeSlide singleTry catchWrap
  cases body.url.truthy
  · rfl
  · cases launch with
    | error e => rfl
    | ok b =>
      cases hr : render b body.url with
      | error e => simp [hr]
      | ok tc =>
        cases hg : gen (singlePrompt tc) with
        | error e => simp [hr, hg]
        | ok t => simp [hr, hg]

/-- Browser events of a batch handler run: empty unless the launch
succeeded, in which case exactly one launch and one close. -/
theorem analyzeSlidesBatch_events (body : BatchRequestBody)
    (launch : Except String Nat)
    (render : Nat → JSValue → Except String RenderedPage)
    (gen : String → Except String String) (post : Except String Unit) :
    (analyzeSlidesBatch body launch render gen post).events
      = if body.url.truthy then
          (match launch with
            | .ok _ => [BrowserEvent.launch, BrowserEvent.close]
            | .error _ => [])
        else [] := by
  unfold analyzeSlidesBatch batchTry catchWrap
  cases body.url.truthy
  · rfl
  · cases launch with
    | error e => rfl
    | ok b =>
      cases hr : render b body.url with
      | error e => simp [hr]
      | ok page =>
        cases post with
        | error e => simp [hr]
        | ok u => simp [hr]

/-- C9: on every execution path of both endpoints the number of close
events equals the number of successful launches, and a browser is never
launched — hence never closed — more than once: a successfully opened
browser is closed exactly once, a never-opened one is never closed, and
no browser is closed twice. -/
theorem c9_browser_lifecycle (bodyS : SingleRequestBody)
    (launchS : Except String Nat)
    (renderS : Nat → JSValue → Except String String)
    (genS : String → Except String String)
    (bodyB : BatchRequestBody) (launchB : Except String Nat)
    (renderB : Nat → JSValue → Except String RenderedPage)
    (genB : String → Except String String) (post : Except String Unit) :
    ((analyzeSlide bodyS launchS renderS genS).events.count
          BrowserEvent.close
        = (analyzeSlide bodyS launchS renderS genS).events.count
            BrowserEvent.launch
      ∧ (analyzeSlide bodyS launchS renderS genS).events.count
          BrowserEvent.launch ≤ 1)
    ∧ ((analyzeSlidesBatch bodyB launchB renderB genB post).events.count
          BrowserEvent.close
        = (analyzeSlidesBatch bodyB launchB renderB genB post).events.count
            BrowserEvent.launch
      ∧ (analyzeSlidesBatch bodyB launchB renderB genB post).events.count
          BrowserEvent.launch ≤ 1) := by
  constructor
  · rw [analyzeSlide_events]
    cases bodyS.url.truthy
    · exact ⟨rfl, Nat.zero_le 1⟩
    · cases launchS with
      | error e => exact ⟨rfl, Nat.zero_le 1⟩
      | ok b => exact ⟨rfl, Nat.le_refl 1⟩
  · rw [analyzeSlidesBatch_events]
    cases bodyB.url.truthy
    · exact ⟨rfl, Nat.zero_le 1⟩
    · cases launchB with
      | error e => exact ⟨rfl, Nat.zero_le 1⟩
      | ok b => exact ⟨rfl, Nat.le_refl 1⟩

/-- C10: a request whose `url` body field is falsy (empty string, 0,
`null`, `false`, or absent/`undefined`) gets the same 400 error as a
missing url on either endpoint, and no browser is ever launched for
it. -/
theorem c10_falsy_url_rejected (bodyS : SingleRequestBody)
    (launchS : Except String Nat)
    (renderS : Nat → JSValue → Except String String)
    (genS : String → Except String String)
    (bodyB : BatchRequestBody) (launchB : Except String Nat)
    (renderB : Nat → JSValue → Except String RenderedPage)
    (genB : String → Except String String) (post : Except String Unit)
    (hS : bodyS.url.truthy = false) (hB : bodyB.url.truthy = false) :
    (analyzeSlide bodyS launchS renderS genS).response
        = .badRequest "URLが必要です"
    ∧ (analyzeSlide bodyS launchS renderS genS).events = []
    ∧ (analyzeSlide bodyS launchS renderS genS).response
        = (analyzeSlide { url := JSValue.undefined }
            launchS renderS genS).response
    ∧ (analyzeSlidesBatch bodyB launchB renderB genB post).response
        = .badRequest "URLが必要です"
    ∧ (analyzeSlidesBatch bodyB launchB renderB genB post).events = []
    ∧ (analyzeSlidesBatch bodyB launchB renderB genB post).response
        = (analyzeSlidesBatch
            { url := JSValue.undefined, slideCount := bodyB.slideCount }
            launchB renderB genB post).response := by
  unfold analyzeSlide analyzeSlidesBatch
  rw [hS, hB]
  exact ⟨rfl, rfl, rfl, rfl, rfl, rfl⟩

/-- Witness for C10 at concrete falsy urls (`""` for the single
endpoint, `0` for the batch endpoint) and concrete collaborators. -/
theorem c10_witness :
    (analyzeSlide { url := JSValue.str "" } (.ok 0) renderSOk genOk).response
        = .badRequest "URLが必要です"
    ∧ (analyzeSlide { url := JSValue.str "" } (.ok 0) renderSOk
        genOk).events = []
    ∧ (analyzeSlide { url := JSValue.str "" } (.ok 0) renderSOk
        genOk).response
        = (analyzeSlide { url := JSValue.undefined } (.ok 0) renderSOk
            genOk).response
    ∧ (analyzeSlidesBatch { url := JSValue.num 0, slideCount := JSValue.null }
        (.ok 0) renderBOk genOk (.ok ())).response
        = .badRequest "URLが必要です"
    ∧ (analyzeSlidesBatch { url := JSValue.num 0, slideCount := JSValue.null }
        (.ok 0) renderBOk genOk (.ok ())).events = []
    ∧ (analyzeSlidesBatch { url := JSValue.num 0, slideCount := JSValue.null }
        (.ok 0) renderBOk genOk (.ok ())).response
        = (analyzeSlidesBatch
            { url := JSValue.undefined, slideCount := JSValue.null }
            (.ok 0) renderBOk genOk (.ok ())).response :=
  c10_falsy_url_rejected { url := JSValue.str "" } (.ok 0) renderSOk genOk
    { url := JSValue.num 0, slideCount := JSValue.null } (.ok 0) renderBOk
    genOk (.ok ()) (by decide) (by decide)

end SlideNarration
